import Mathlib

/-!
Shallow embedding of `src/software/code.py` (MorseForge TRRS + BLE firmware):
a single cooperative polling loop that debounces two active-low contacts
(DIT and DAH), drives a NeoPixel indicator, and relays confirmed edges over a
BLE UART link.  Time instants (`time.monotonic()`, seconds) are modelled as
exact rationals; the per-tick connection flag, raw samples, and the success of
each `uart.write` are inputs to the tick function.
-/

namespace MorseForge

/-- A monotonic time instant in seconds (`time.monotonic()` in the source),
modelled exactly as a rational number. -/
abbrev Time := ℚ

/-- `DEBOUNCE_S = 0.010`, line 22: the 10 ms debounce window in seconds. -/
def DEBOUNCE_S : Time := 10 / 1000

/-- An edge of a contact.  In the source a pressed edge is the `not cur_dit`
branch (active-low) and a released edge is the `else` branch. -/
inductive Edge
  | pressed
  | released
deriving DecidableEq, Repr

/-- Which of the two monitored contacts: DIT (left paddle) or DAH (right). -/
inductive Contact
  | dit
  | dah
deriving DecidableEq, Repr

/-- Per-contact debounce state: `last_dit`/`last_dah` (the confirmed level)
and `last_change_dit`/`last_change_dah` (lines 73-76, updated at 151-152 and
173-174). -/
structure DebounceState where
  confirmed : Bool
  lastChange : Time
deriving DecidableEq, Repr

/-- One debounce evaluation for one contact, lines 149-152 (DIT) and 171-174
(DAH): if the raw sample differs from the confirmed level and the window has
elapsed since the last confirmed change, accept the sample (update both state
fields) and emit the edge (`released` when the raw level is `true`, `pressed`
when it is `false`, active-low); otherwise leave the state alone and emit
nothing. -/
def debouncePoll (st : DebounceState) (raw : Bool) (now : Time) :
    DebounceState × Option Edge :=
  if raw ≠ st.confirmed ∧ DEBOUNCE_S ≤ now - st.lastChange then
    (⟨raw, now⟩, some (if raw then Edge.released else Edge.pressed))
  else
    (st, none)

/-- Fold `debouncePoll` over a list of `(now, raw)` polls, collecting the
emitted events with the poll instants at which they fired. -/
def debounceRun (st : DebounceState) :
    List (Time × Bool) → DebounceState × List (Time × Edge)
  | [] => (st, [])
  | (now, raw) :: rest =>
    let step := debouncePoll st raw now
    let tail := debounceRun step.1 rest
    (tail.1, (match step.2 with
      | some e => [(now, e)]
      | none => []) ++ tail.2)

/-- UTF-8 bytes of a string.  Every string the firmware writes is plain
ASCII, where the UTF-8 encoding of each character is its code point. -/
def utf8Bytes (s : String) : List Nat :=
  s.data.map Char.toNat

/-- The event text handed to `safe_uart_write`, lines 156, 162, 178, 184:
the compact wire form `"K1:1" / "K1:0" / "K2:1" / "K2:0"`. -/
def outboundMessage : Contact → Edge → String
  | Contact.dit, Edge.pressed => "K1:1"
  | Contact.dit, Edge.released => "K1:0"
  | Contact.dah, Edge.pressed => "K2:1"
  | Contact.dah, Edge.released => "K2:0"

/-- The event name printed on the diagnostic log, lines 157, 163, 179, 185:
the verbose form `"DIT_DOWN" / "DIT_UP" / "DAH_DOWN" / "DAH_UP"`. -/
def eventLogName : Contact → Edge → String
  | Contact.dit, Edge.pressed => "DIT_DOWN"
  | Contact.dit, Edge.released => "DIT_UP"
  | Contact.dah, Edge.pressed => "DAH_DOWN"
  | Contact.dah, Edge.released => "DAH_UP"

/-- `ble_is_connected`, lines 99-100: `BLE_AVAILABLE and ble and ble.connected`.
The `ble` object is non-`None` exactly when `BLE_AVAILABLE` (lines 84-91), so
the truthiness chain collapses to the conjunction of the availability flag and
the connection flag. -/
def ble_is_connected (bleAvailable bleConnected : Bool) : Bool :=
  bleAvailable && bleConnected

/-- Observable outcome of one `safe_uart_write` call: the byte payload passed
to `uart.write` (`none` when no write was attempted), whether the write
succeeded, whether an error notice was printed, and the new value of the
`last_uart_error` global. -/
structure WriteOut where
  written : Option (List Nat)
  delivered : Bool
  reported : Bool
  lastUartError : Time
deriving DecidableEq, Repr

/-- `safe_uart_write`, lines 102-112: return immediately when not connected;
otherwise write `event_text + "\n"` UTF-8 encoded.  `writeFails` models
`uart.write` raising: the exception is swallowed, and the failure is printed
only when more than 2 s have passed since `last_uart_error`, which is then
reset to the current time. -/
def safe_uart_write (bleAvailable bleConnected writeFails : Bool)
    (now lastUartError : Time) (event_text : String) : WriteOut :=
  if ble_is_connected bleAvailable bleConnected = false then
    ⟨none, false, false, lastUartError⟩
  else if writeFails then
    if 2 < now - lastUartError then
      ⟨some (utf8Bytes (event_text ++ "\n")), false, true, now⟩
    else
      ⟨some (utf8Bytes (event_text ++ "\n")), false, false, lastUartError⟩
  else
    ⟨some (utf8Bytes (event_text ++ "\n")), true, false, lastUartError⟩

/-- `pixel_set`, lines 46-54: a no-op unless the pixel initialized and is
enabled; otherwise each channel is clamped into 0-255 and the triple is
emitted to `neopixel_write` in GRB order. -/
def pixel_set (pixelOk pixelEnabled : Bool) (r g b : Int) :
    Option (List Int) :=
  if !pixelOk || !pixelEnabled then
    none
  else
    some [max 0 (min 255 g), max 0 (min 255 r), max 0 (min 255 b)]

/-- Whether startup calls `ble.start_advertising`, lines 118-121: it does
exactly when `BLE_AVAILABLE`; the unavailable branch (lines 123-125) only
prints and continues. -/
def startupAdvertises (bleAvailable : Bool) : Bool :=
  bleAvailable

/-- Result of the BLE connection-change check at the top of the loop body. -/
structure BleCheckOut where
  lastConnected : Bool
  restarted : Bool
  pixels : List (Int × Int × Int)
deriving DecidableEq, Repr

/-- Lines 134-146: when BLE is available, compare the current connection flag
with `last_connected`; on a change, record it, and either show the connected
color (connect edge) or, on the disconnect edge, restart advertising unless
already advertising and show the idle color.  No change (or no BLE) does
nothing. -/
def bleCheck (bleAvailable lastConnected connectedNow advertising : Bool) :
    BleCheckOut :=
  if bleAvailable then
    if connectedNow ≠ lastConnected then
      if connectedNow then
        ⟨connectedNow, false, [(12, 0, 12)]⟩
      else
        ⟨connectedNow, !advertising, [(0, 0, 12)]⟩
    else
      ⟨lastConnected, false, []⟩
  else
    ⟨lastConnected, false, []⟩

/-- The indicator color requested on a pressed edge: green `(0, 20, 0)` for
DIT (line 158), brighter blue `(0, 0, 20)` for DAH (line 180). -/
def activePixel : Contact → Int × Int × Int
  | Contact.dit => (0, 20, 0)
  | Contact.dah => (0, 0, 20)

/-- Observable outcome of one per-contact block of the loop body. -/
structure ContactOut where
  dstate : DebounceState
  event : Option Edge
  pixels : List (Int × Int × Int)
  write : Option (List Nat)
  reported : Bool
  lastUartError : Time
deriving DecidableEq, Repr

/-- One per-contact block of the loop body, lines 148-168 (DIT) and 170-190
(DAH): run the debounce; on a confirmed pressed edge request the contact's
active color, on a released edge request the connected color when
`BLE_AVAILABLE and ble and ble.connected` and the idle color otherwise; then
hand the compact event text to `safe_uart_write`. -/
def contactBlock (bleAvailable bleConnected writeFails : Bool) (c : Contact)
    (st : DebounceState) (raw : Bool) (now lastUartError : Time) :
    ContactOut :=
  match (debouncePoll st raw now).2 with
  | none => ⟨(debouncePoll st raw now).1, none, [], none, false, lastUartError⟩
  | some e =>
    let w := safe_uart_write bleAvailable bleConnected writeFails now
      lastUartError (outboundMessage c e)
    ⟨(debouncePoll st raw now).1, some e,
      (match e with
        | Edge.pressed => [activePixel c]
        | Edge.released =>
          if ble_is_connected bleAvailable bleConnected then
            [(12, 0, 12)]
          else
            [(0, 0, 12)]),
      w.written, w.reported, w.lastUartError⟩

/-- The loop's mutable globals: `last_connected`, the two debounce states,
and `last_uart_error`. -/
structure SysState where
  lastConnected : Bool
  ditState : DebounceState
  dahState : DebounceState
  lastUartError : Time
deriving DecidableEq, Repr

/-- The environment observed during one loop iteration: the tick instant, the
radio's connection and advertising flags, the two raw samples, and whether
each attempted `uart.write` raises. -/
structure TickInput where
  now : Time
  bleConnected : Bool
  advertising : Bool
  rawDit : Bool
  rawDah : Bool
  ditWriteFails : Bool
  dahWriteFails : Bool
deriving DecidableEq, Repr

/-- Observable outcome of one full loop iteration. -/
structure TickOut where
  state : SysState
  restarted : Bool
  pixels : List (Int × Int × Int)
  uartWrites : List (List Nat)
  ditEvent : Option Edge
  dahEvent : Option Edge
  reported : Bool
deriving DecidableEq, Repr

/-- One iteration of the main loop, lines 130-192: the BLE connection-change
check, then the DIT block, then the DAH block (always in this order), with
`last_uart_error` threaded from the DIT block into the DAH block. -/
def tick (bleAvailable : Bool) (s : SysState) (i : TickInput) : TickOut :=
  let bc := bleCheck bleAvailable s.lastConnected i.bleConnected i.advertising
  let d1 := contactBlock bleAvailable i.bleConnected i.ditWriteFails
    Contact.dit s.ditState i.rawDit i.now s.lastUartError
  let d2 := contactBlock bleAvailable i.bleConnected i.dahWriteFails
    Contact.dah s.dahState i.rawDah i.now d1.lastUartError
  ⟨⟨bc.lastConnected, d1.dstate, d2.dstate, d2.lastUartError⟩,
    bc.restarted,
    bc.pixels ++ d1.pixels ++ d2.pixels,
    d1.write.toList ++ d2.write.toList,
    d1.event, d2.event,
    d1.reported || d2.reported⟩

/-- Spec-side notion, following the spec's words "the last raw level that was
held stable for ≥ debounce_window": in a sampled trace, level `lvl` was held
stable for at least `w` by time `now` when some sample reads `lvl` at an
instant at least `w` before `now` and every sample from that instant up to
`now` reads `lvl`. -/
def heldStableFor (samples : List (Time × Bool)) (lvl : Bool) (w now : Time) :
    Prop :=
  ∃ p ∈ samples, p.2 = lvl ∧ p.1 + w ≤ now ∧
    ∀ q ∈ samples, p.1 ≤ q.1 → q.1 ≤ now → q.2 = lvl

/-! ## Helper lemmas shared by the claim theorems -/

theorem debouncePoll_fst_of_some (st : DebounceState) (raw : Bool) (now : Time)
    (e : Edge) (h : (debouncePoll st raw now).2 = some e) :
    (debouncePoll st raw now).1 = ⟨raw, now⟩ := by
  unfold debouncePoll at h ⊢
  by_cases hc : raw ≠ st.confirmed ∧ DEBOUNCE_S ≤ now - st.lastChange
  · simp [hc]
  · simp [hc] at h

theorem contactBlock_dstate (a c f : Bool) (ct : Contact)
    (st : DebounceState) (raw : Bool) (now le : Time) :
    (contactBlock a c f ct st raw now le).dstate = (debouncePoll st raw now).1 := by
  rcases h : (debouncePoll st raw now).2 with _ | e <;> simp [contactBlock, h]

theorem contactBlock_event (a c f : Bool) (ct : Contact)
    (st : DebounceState) (raw : Bool) (now le : Time) :
    (contactBlock a c f ct st raw now le).event = (debouncePoll st raw now).2 := by
  rcases h : (debouncePoll st raw now).2 with _ | e <;> simp [contactBlock, h]

theorem bleCheck_restarted (a lc cn adv : Bool) :
    (bleCheck a lc cn adv).restarted = (a && lc && !cn && !adv) := by
  cases a <;> cases lc <;> cases cn <;> cases adv <;> rfl

theorem tick_ditState (a : Bool) (s : SysState) (i : TickInput) :
    (tick a s i).state.ditState = (debouncePoll s.ditState i.rawDit i.now).1 := by
  simp [tick, contactBlock_dstate]

theorem tick_dahState (a : Bool) (s : SysState) (i : TickInput) :
    (tick a s i).state.dahState = (debouncePoll s.dahState i.rawDah i.now).1 := by
  simp [tick, contactBlock_dstate]

theorem tick_ditEvent (a : Bool) (s : SysState) (i : TickInput) :
    (tick a s i).ditEvent = (debouncePoll s.ditState i.rawDit i.now).2 := by
  simp [tick, contactBlock_event]

theorem tick_dahEvent (a : Bool) (s : SysState) (i : TickInput) :
    (tick a s i).dahEvent = (debouncePoll s.dahState i.rawDah i.now).2 := by
  simp [tick, contactBlock_event]

theorem tick_restarted (a : Bool) (s : SysState) (i : TickInput) :
    (tick a s i).restarted = (a && s.lastConnected && !i.bleConnected && !i.advertising) := by
  have h : (tick a s i).restarted =
      (bleCheck a s.lastConnected i.bleConnected i.advertising).restarted := rfl
  rw [h, bleCheck_restarted]

/-! ## Claim theorems -/

/-- C1: Debouncer poll contract: at any poll, an event is emitted iff the raw
sample differs from the stored confirmed level and at least the 10 ms window
has elapsed since the last confirmed change; when emitted, the state becomes
`⟨raw, now⟩` and the edge is `released` for `raw = true`, `pressed` for
`raw = false` (active-low); otherwise the state is unchanged, and after a
confirmed change a repeated poll with the same raw value emits nothing. -/
theorem debounce_poll_contract (st : DebounceState) (raw : Bool) (now : Time) :
    (((debouncePoll st raw now).2).isSome ↔
      (raw ≠ st.confirmed ∧ DEBOUNCE_S ≤ now - st.lastChange))
    ∧ (∀ e : Edge, (debouncePoll st raw now).2 = some e →
        (debouncePoll st raw now).1 = ⟨raw, now⟩ ∧
        e = (if raw then Edge.released else Edge.pressed))
    ∧ ((debouncePoll st raw now).2 = none → (debouncePoll st raw now).1 = st)
    ∧ (∀ later : Time, (debouncePoll ⟨raw, now⟩ raw later).2 = none) := by
  refine ⟨?_, ?_, ?_, ?_⟩
  · by_cases hc : raw ≠ st.confirmed ∧ DEBOUNCE_S ≤ now - st.lastChange <;>
      simp [debouncePoll, hc]
  · intro e he
    refine ⟨debouncePoll_fst_of_some st raw now e he, ?_⟩
    unfold debouncePoll at he
    by_cases hc : raw ≠ st.confirmed ∧ DEBOUNCE_S ≤ now - st.lastChange
    · simp [hc] at he
      exact he.symm
    · simp [hc] at he
  · intro hn
    unfold debouncePoll at hn ⊢
    by_cases hc : raw ≠ st.confirmed ∧ DEBOUNCE_S ≤ now - st.lastChange
    · simp [hc] at hn
    · simp [hc]
  · intro later
    simp [debouncePoll]

/-- Witness for C1 at a concrete poll: from state (confirmed `true`, last
change at 0), sampling `false` at t = 1 s emits, and the state becomes
`⟨false, 1⟩`. -/
theorem debounce_poll_contract_witness :
    (debouncePoll ⟨true, 0⟩ false 1).1 = (⟨false, 1⟩ : DebounceState) :=
  ((debounce_poll_contract ⟨true, 0⟩ false 1).2.1 Edge.pressed
    (by norm_num [debouncePoll, DEBOUNCE_S])).1

/-- C2 counterexample: from a state seeded `⟨true, 0⟩`, the bouncing trace
sampled false at 12 ms, true at 14 ms, false at 16 ms leaves the code's
confirmed level at `false` (the first differing sample is accepted
immediately once the window since the last confirmed change has elapsed),
yet the level `false` was never held stable for the 10 ms window in that
trace — so `confirmed_level` does not always equal the last raw level held
stable for at least the debounce window. -/
theorem stability_invariant_counterexample :
    (debounceRun ⟨true, 0⟩
      [(12/1000, false), (14/1000, true), (16/1000, false)]).1.confirmed = false
    ∧ ¬ heldStableFor
        [(0, true), (12/1000, false), (14/1000, true), (16/1000, false)]
        false DEBOUNCE_S (16/1000) := by
  constructor
  · norm_num [debounceRun, debouncePoll, DEBOUNCE_S]
  · intro h
    rcases h with ⟨p, hp, hlvl, hwin, _⟩
    simp only [List.mem_cons, List.not_mem_nil, or_false] at hp
    rcases hp with rfl | rfl | rfl | rfl
    · simp at hlvl
    · norm_num [DEBOUNCE_S] at hwin
    · simp at hlvl
    · norm_num [DEBOUNCE_S] at hwin

/-- C2 (amended): at most one confirmed transition is recognized per debounce
window — after a poll confirms a change at time `now`, any later poll less
than the 10 ms window after `now` emits nothing — and the spec's scenario
holds with state seeded at t = 0: raw press at t = 0 and bounce back at
t = 5 ms emit nothing, while the transition confirmed at t = 15 ms emits
exactly one `pressed` event timestamped 15 ms.  However, `confirmed_level`
equals the most recently accepted differing raw sample, not necessarily a
level that was held stable for the full window. -/
theorem debounce_lockout_and_scenario :
    (∀ (st : DebounceState) (raw : Bool) (now : Time) (e : Edge)
        (raw2 : Bool) (t2 : Time),
      (debouncePoll st raw now).2 = some e →
      t2 - now < DEBOUNCE_S →
      (debouncePoll (debouncePoll st raw now).1 raw2 t2).2 = none)
    ∧ (debounceRun ⟨true, 0⟩
        [(0, false), (5/1000, true), (15/1000, false)]).2
        = [(15/1000, Edge.pressed)] := by
  constructor
  · intro st raw now e raw2 t2 hsome hlt
    rw [debouncePoll_fst_of_some st raw now e hsome]
    unfold debouncePoll
    rw [if_neg]
    intro hcon
    exact absurd hcon.2 (by simpa using not_le.mpr hlt)
  · norm_num [debounceRun, debouncePoll, DEBOUNCE_S]

/-- Witness for C2 (amended) at concrete inputs: the poll at t = 1 s confirms
a change, and a later poll at t = 1.005 s (5 ms later, inside the window)
emits nothing whatever the raw sample reads. -/
theorem debounce_lockout_and_scenario_witness :
    (debouncePoll (debouncePoll ⟨true, 0⟩ false 1).1 true (1 + 5/1000)).2 = none :=
  debounce_lockout_and_scenario.1 ⟨true, 0⟩ false 1 Edge.pressed true (1 + 5/1000)
    (by norm_num [debouncePoll, DEBOUNCE_S]) (by norm_num [DEBOUNCE_S])

theorem contactBlock_write_mem (a c f : Bool) (ct : Contact)
    (st : DebounceState) (raw : Bool) (now le : Time) (w : List Nat)
    (hw : (contactBlock a c f ct st raw now le).write = some w) :
    ∃ e : Edge, w = utf8Bytes (outboundMessage ct e ++ "\n") := by
  rcases h : (debouncePoll st raw now).2 with _ | e
  · simp [contactBlock, h] at hw
  · refine ⟨e, ?_⟩
    have hw2 : (safe_uart_write a c f now le (outboundMessage ct e)).written
        = some w := by
      simpa [contactBlock, h] using hw
    unfold safe_uart_write at hw2
    split_ifs at hw2 <;> simp_all

/-- C3 counterexample: on a tick where the link is already down
(`last_connected = false`, current connection flag `false`, i.e. no
connected-to-disconnected edge) and the radio is not advertising, the loop
does not restart advertising — the re-advertising condition lives inside the
`connected_now != last_connected` branch and so is not checked on every
tick. -/
theorem readvertise_every_tick_counterexample :
    (tick true ⟨false, ⟨true, 0⟩, ⟨true, 0⟩, 0⟩
      ⟨1, false, false, true, true, false, false⟩).restarted = false := by
  rw [tick_restarted]
  rfl

/-- C3 (amended): advertising is restarted exactly on the tick that observes
the connected-to-disconnected edge (`last_connected` true, current connection
flag false) while the radio reports it is not advertising, BLE being
available; on any other tick — in particular a tick that is merely still
disconnected — no restart is attempted. -/
theorem readvertise_on_edge_only (a : Bool) (s : SysState) (i : TickInput) :
    (tick a s i).restarted =
      (a && s.lastConnected && !i.bleConnected && !i.advertising) := by
  rw [tick_restarted]

/-- C4 counterexample: with the link connected, a confirmed DIT press puts
exactly the compact line `"K1:1"` (newline-terminated) on the link, and that
payload is not the verbose `"DIT_DOWN"` line; there is no configuration value
in the source selecting the verbose wire form. -/
theorem protocol_config_counterexample :
    (tick true ⟨true, ⟨true, 0⟩, ⟨true, 0⟩, 0⟩
      ⟨1, true, false, false, true, false, false⟩).uartWrites
        = [utf8Bytes "K1:1\n"]
    ∧ utf8Bytes "K1:1\n" ≠ utf8Bytes "DIT_DOWN\n" := by
  constructor
  · norm_num [tick, contactBlock, bleCheck, debouncePoll, DEBOUNCE_S,
      safe_uart_write, ble_is_connected, outboundMessage]
    rfl
  · decide

/-- C4 (amended): the wire protocol text form is fixed, not configurable:
every byte payload any tick puts on the link is one of the four compact
newline-terminated lines, while the verbose `DIT_DOWN`-style names occur only
as the diagnostic log event names. -/
theorem protocol_fixed_compact (a : Bool) (s : SysState) (i : TickInput) :
    (∀ w ∈ (tick a s i).uartWrites,
        w ∈ [utf8Bytes "K1:1\n", utf8Bytes "K1:0\n",
             utf8Bytes "K2:1\n", utf8Bytes "K2:0\n"])
    ∧ eventLogName Contact.dit Edge.pressed = "DIT_DOWN"
    ∧ eventLogName Contact.dit Edge.released = "DIT_UP"
    ∧ eventLogName Contact.dah Edge.pressed = "DAH_DOWN"
    ∧ eventLogName Contact.dah Edge.released = "DAH_UP" := by
  refine ⟨?_, rfl, rfl, rfl, rfl⟩
  intro w hw
  have hw2 : w ∈ (contactBlock a i.bleConnected i.ditWriteFails Contact.dit
        s.ditState i.rawDit i.now s.lastUartError).write.toList
      ++ (contactBlock a i.bleConnected i.dahWriteFails Contact.dah
        s.dahState i.rawDah i.now
        (contactBlock a i.bleConnected i.ditWriteFails Contact.dit
          s.ditState i.rawDit i.now s.lastUartError).lastUartError).write.toList :=
    hw
  rw [List.mem_append] at hw2
  rcases hw2 with hmem | hmem
  · rw [Option.mem_toList, Option.mem_def] at hmem
    rcases contactBlock_write_mem _ _ _ _ _ _ _ _ _ hmem with ⟨e, rfl⟩
    cases e <;> decide
  · rw [Option.mem_toList, Option.mem_def] at hmem
    rcases contactBlock_write_mem _ _ _ _ _ _ _ _ _ hmem with ⟨e, rfl⟩
    cases e <;> decide

/-- Witness for C4 (amended) at a concrete tick: the payload a connected DIT
press puts on the link is among the four compact lines. -/
theorem protocol_fixed_compact_witness :
    utf8Bytes "K1:1\n" ∈ [utf8Bytes "K1:1\n", utf8Bytes "K1:0\n",
      utf8Bytes "K2:1\n", utf8Bytes "K2:0\n"] := by
  refine (protocol_fixed_compact true ⟨true, ⟨true, 0⟩, ⟨true, 0⟩, 0⟩
      ⟨1, true, false, false, true, false, false⟩).1 (utf8Bytes "K1:1\n") ?_
  norm_num [tick, contactBlock, bleCheck, debouncePoll, DEBOUNCE_S,
    safe_uart_write, ble_is_connected, outboundMessage]
  decide

theorem safe_uart_write_fail_cases (now le : Time) (txt : String) :
    (2 < now - le →
      safe_uart_write true true true now le txt
        = ⟨some (utf8Bytes (txt ++ "\n")), false, true, now⟩)
    ∧ (¬(2 < now - le) →
      safe_uart_write true true true now le txt
        = ⟨some (utf8Bytes (txt ++ "\n")), false, false, le⟩) := by
  constructor <;> intro h <;> simp [safe_uart_write, ble_is_connected, h]

theorem contactBlock_pixels (a c f : Bool) (ct : Contact)
    (st : DebounceState) (raw : Bool) (now le : Time) :
    (contactBlock a c f ct st raw now le).pixels
      = match (debouncePoll st raw now).2 with
        | none => []
        | some Edge.pressed => [activePixel ct]
        | some Edge.released =>
          if ble_is_connected a c then [(12, 0, 12)] else [(0, 0, 12)] := by
  rcases h : (debouncePoll st raw now).2 with _ | e
  · simp [contactBlock, h]
  · cases e <;> simp [contactBlock, h]

theorem contactBlock_write_eq (a c f : Bool) (ct : Contact)
    (st : DebounceState) (raw : Bool) (now le : Time) :
    (contactBlock a c f ct st raw now le).write
      = if ble_is_connected a c then
          ((debouncePoll st raw now).2).map
            (fun e => utf8Bytes (outboundMessage ct e ++ "\n"))
        else none := by
  rcases h : (debouncePoll st raw now).2 with _ | e
  · simp [contactBlock, h]
  · by_cases hc : ble_is_connected a c = true
    · simp only [contactBlock, h, hc, if_true]
      unfold safe_uart_write
      rw [hc]
      split_ifs <;> simp_all
    · have hc2 : ble_is_connected a c = false := by
        revert hc
        cases ble_is_connected a c <;> simp
      simp [contactBlock, h, hc2, safe_uart_write]

theorem contactBlock_unavailable (c f : Bool) (ct : Contact)
    (st : DebounceState) (raw : Bool) (now le : Time) :
    (contactBlock false c f ct st raw now le).write = none ∧
    (contactBlock false c f ct st raw now le).reported = false ∧
    (contactBlock false c f ct st raw now le).lastUartError = le := by
  rcases h : (debouncePoll st raw now).2 with _ | e <;>
    simp [contactBlock, h, safe_uart_write, ble_is_connected]

/-- C5: TransportError handling: a write failure while connected is swallowed
(the call returns, the event is abandoned with `delivered = false`, and
exactly one write attempt is made, no retry or requeue), the failure notice
is rate-limited — two failures less than 2 s apart produce at most one
report — and the loop continues: the per-tick event and debounce results do
not depend on write failures. -/
theorem transport_error_handling :
    (∀ (now le : Time) (txt : String),
        (safe_uart_write true true true now le txt).delivered = false ∧
        (safe_uart_write true true true now le txt).written
          = some (utf8Bytes (txt ++ "\n")))
    ∧ (∀ (t1 t2 le : Time) (txt1 txt2 : String),
        t2 - t1 < 2 →
        ¬((safe_uart_write true true true t1 le txt1).reported = true ∧
          (safe_uart_write true true true t2
            (safe_uart_write true true true t1 le txt1).lastUartError
            txt2).reported = true))
    ∧ (∀ (a : Bool) (s : SysState) (i : TickInput),
        (tick a s i).ditEvent = (debouncePoll s.ditState i.rawDit i.now).2 ∧
        (tick a s i).dahEvent = (debouncePoll s.dahState i.rawDah i.now).2 ∧
        (tick a s i).state.ditState
          = (debouncePoll s.ditState i.rawDit i.now).1 ∧
        (tick a s i).state.dahState
          = (debouncePoll s.dahState i.rawDah i.now).1) := by
  refine ⟨?_, ?_, ?_⟩
  · intro now le txt
    by_cases h : 2 < now - le
    · rw [(safe_uart_write_fail_cases now le txt).1 h]
      exact ⟨rfl, rfl⟩
    · rw [(safe_uart_write_fail_cases now le txt).2 h]
      exact ⟨rfl, rfl⟩
  · intro t1 t2 le txt1 txt2 hlt h
    rcases h with ⟨h1, h2⟩
    by_cases hc : 2 < t1 - le
    · rw [(safe_uart_write_fail_cases t1 le txt1).1 hc] at h2
      have h3 := (safe_uart_write_fail_cases t2 t1 txt2).2 (by linarith)
      simp only [h3] at h2
      simp at h2
    · rw [(safe_uart_write_fail_cases t1 le txt1).2 hc] at h1
      simp at h1
  · intro a s i
    exact ⟨tick_ditEvent a s i, tick_dahEvent a s i,
      tick_ditState a s i, tick_dahState a s i⟩

/-- Witness for C5 at concrete times: two write failures at t = 10 s and
t = 11 s (1 s apart, below the 2 s rate limit) do not both report. -/
theorem transport_error_handling_witness :
    ¬((safe_uart_write true true true 10 0 "K1:1").reported = true ∧
      (safe_uart_write true true true 11
        (safe_uart_write true true true 10 0 "K1:1").lastUartError
        "K1:0").reported = true) :=
  transport_error_handling.2.1 10 11 0 "K1:1" "K1:0" (by norm_num)

/-- C6: if the BLE capability is absent at initialization, the system
degrades rather than failing: the reported connection state is always
`false`, `safe_uart_write` is a pure no-op (nothing written, nothing
reported, error state unchanged), startup never starts advertising, no tick
ever restarts advertising or writes to the link, and debouncing and the
per-event indicator requests continue unchanged. -/
theorem transport_unavailable_degradation :
    (∀ c : Bool, ble_is_connected false c = false)
    ∧ (∀ (c f : Bool) (now le : Time) (txt : String),
        safe_uart_write false c f now le txt = ⟨none, false, false, le⟩)
    ∧ startupAdvertises false = false
    ∧ (∀ (s : SysState) (i : TickInput),
        (tick false s i).restarted = false ∧
        (tick false s i).state.lastConnected = s.lastConnected ∧
        (tick false s i).uartWrites = [] ∧
        (tick false s i).reported = false ∧
        (tick false s i).state.lastUartError = s.lastUartError ∧
        (tick false s i).state.ditState
          = (debouncePoll s.ditState i.rawDit i.now).1 ∧
        (tick false s i).state.dahState
          = (debouncePoll s.dahState i.rawDah i.now).1 ∧
        (tick false s i).ditEvent = (debouncePoll s.ditState i.rawDit i.now).2 ∧
        (tick false s i).dahEvent = (debouncePoll s.dahState i.rawDah i.now).2)
    ∧ (∀ (c f : Bool) (ct : Contact) (st : DebounceState) (raw : Bool)
        (now le : Time),
        ((contactBlock false c f ct st raw now le).event = some Edge.pressed →
          (contactBlock false c f ct st raw now le).pixels = [activePixel ct]) ∧
        ((contactBlock false c f ct st raw now le).event = some Edge.released →
          (contactBlock false c f ct st raw now le).pixels = [(0, 0, 12)])) := by
  refine ⟨fun c => rfl, ?_, rfl, ?_, ?_⟩
  · intro c f now le txt
    simp [safe_uart_write, ble_is_connected]
  · intro s i
    refine ⟨?_, rfl, ?_, ?_, ?_, tick_ditState false s i, tick_dahState false s i,
      tick_ditEvent false s i, tick_dahEvent false s i⟩
    · rw [tick_restarted]; rfl
    · show (contactBlock false i.bleConnected i.ditWriteFails Contact.dit
          s.ditState i.rawDit i.now s.lastUartError).write.toList
        ++ (contactBlock false i.bleConnected i.dahWriteFails Contact.dah
          s.dahState i.rawDah i.now _).write.toList = []
      rw [(contactBlock_unavailable _ _ _ _ _ _ _).1,
        (contactBlock_unavailable _ _ _ _ _ _ _).1]
      rfl
    · show ((contactBlock false i.bleConnected i.ditWriteFails Contact.dit
          s.ditState i.rawDit i.now s.lastUartError).reported
        || (contactBlock false i.bleConnected i.dahWriteFails Contact.dah
          s.dahState i.rawDah i.now _).reported) = false
      rw [(contactBlock_unavailable _ _ _ _ _ _ _).2.1,
        (contactBlock_unavailable _ _ _ _ _ _ _).2.1]
      rfl
    · show (contactBlock false i.bleConnected i.dahWriteFails Contact.dah
          s.dahState i.rawDah i.now
          (contactBlock false i.bleConnected i.ditWriteFails Contact.dit
            s.ditState i.rawDit i.now s.lastUartError).lastUartError).lastUartError
        = s.lastUartError
      rw [(contactBlock_unavailable _ _ _ _ _ _ _).2.2,
        (contactBlock_unavailable _ _ _ _ _ _ _).2.2]
  · intro c f ct st raw now le
    have he := contactBlock_event false c f ct st raw now le
    have hp := contactBlock_pixels false c f ct st raw now le
    rcases h : (debouncePoll st raw now).2 with _ | e
    · rw [h] at he hp
      exact ⟨fun hx => absurd (he.symm.trans hx) (by simp),
        fun hx => absurd (he.symm.trans hx) (by simp)⟩
    · cases e
      · rw [h] at he hp
        refine ⟨fun _ => hp, fun hx => absurd (he.symm.trans hx) (by simp)⟩
      · rw [h] at he hp
        simp [ble_is_connected] at hp
        exact ⟨fun hx => absurd (he.symm.trans hx) (by simp), fun _ => hp⟩

/-- Witness for C6 at a concrete tick: a confirmed DAH release with BLE
unavailable requests the idle blue color. -/
theorem transport_unavailable_degradation_witness :
    (contactBlock false true false Contact.dah ⟨false, 0⟩ true 1 0).pixels
      = [(0, 0, 12)] := by
  refine (transport_unavailable_degradation.2.2.2.2 true false Contact.dah
    ⟨false, 0⟩ true 1 0).2 ?_
  rw [contactBlock_event]
  norm_num [debouncePoll, DEBOUNCE_S]

/-- C7: release-color policy: on a confirmed pressed edge the per-contact
block requests that contact's active color; on a confirmed released edge it
requests the color of the current link state — the connected purple when
`BLE_AVAILABLE and ble and ble.connected`, the idle blue otherwise — and with
no confirmed edge it requests nothing. -/
theorem release_color_policy (a c f : Bool) (ct : Contact)
    (st : DebounceState) (raw : Bool) (now le : Time) :
    ((contactBlock a c f ct st raw now le).event = some Edge.pressed →
      (contactBlock a c f ct st raw now le).pixels = [activePixel ct])
    ∧ ((contactBlock a c f ct st raw now le).event = some Edge.released →
      (contactBlock a c f ct st raw now le).pixels
        = if ble_is_connected a c then [(12, 0, 12)] else [(0, 0, 12)])
    ∧ ((contactBlock a c f ct st raw now le).event = none →
      (contactBlock a c f ct st raw now le).pixels = []) := by
  have he := contactBlock_event a c f ct st raw now le
  have hp := contactBlock_pixels a c f ct st raw now le
  rcases h : (debouncePoll st raw now).2 with _ | e
  · rw [h] at he hp
    refine ⟨?_, ?_, fun _ => hp⟩ <;> intro hx <;> rw [he] at hx <;> simp at hx
  · cases e <;> rw [h] at he hp <;>
      refine ⟨?_, ?_, ?_⟩ <;> intro hx <;> rw [he] at hx <;> simp_all

/-- Witness for C7 at a concrete poll: a confirmed DIT release while
connected restores the connected purple, not a hardcoded idle color. -/
theorem release_color_policy_witness :
    (contactBlock true true false Contact.dit ⟨false, 0⟩ true 1 0).pixels
      = [(12, 0, 12)] := by
  have h := (release_color_policy true true false Contact.dit
      ⟨false, 0⟩ true 1 0).2.1 (by
    rw [contactBlock_event]
    norm_num [debouncePoll, DEBOUNCE_S])
  simpa [ble_is_connected] using h

/-- C8: compact wire protocol correctness: the event texts are exactly the
four compact lines; each payload put on the link is the UTF-8 bytes of the
event text followed by a single terminating newline (exactly one newline
byte, in final position); nothing is written unless the link is connected;
and while connected a tick writes exactly one line per emitted event, DIT
first. -/
theorem compact_wire_protocol :
    (outboundMessage Contact.dit Edge.pressed = "K1:1"
      ∧ outboundMessage Contact.dit Edge.released = "K1:0"
      ∧ outboundMessage Contact.dah Edge.pressed = "K2:1"
      ∧ outboundMessage Contact.dah Edge.released = "K2:0")
    ∧ (∀ (ct : Contact) (e : Edge),
        (utf8Bytes (outboundMessage ct e ++ "\n")).count 10 = 1 ∧
        (utf8Bytes (outboundMessage ct e ++ "\n")).getLast? = some 10)
    ∧ (∀ (a c f : Bool) (now le : Time) (txt : String),
        ble_is_connected a c = false →
        (safe_uart_write a c f now le txt).written = none)
    ∧ (∀ (a : Bool) (s : SysState) (i : TickInput),
        ble_is_connected a i.bleConnected = false →
        (tick a s i).uartWrites = [])
    ∧ (∀ (a : Bool) (s : SysState) (i : TickInput),
        ble_is_connected a i.bleConnected = true →
        (tick a s i).uartWrites
          = ((tick a s i).ditEvent.map
              (fun e => utf8Bytes (outboundMessage Contact.dit e ++ "\n"))).toList
            ++ ((tick a s i).dahEvent.map
              (fun e => utf8Bytes (outboundMessage Contact.dah e ++ "\n"))).toList) := by
  refine ⟨⟨rfl, rfl, rfl, rfl⟩, ?_, ?_, ?_, ?_⟩
  · intro ct e
    cases ct <;> cases e <;> exact ⟨by decide, by decide⟩
  · intro a c f now le txt h
    simp [safe_uart_write, h]
  · intro a s i h
    show (contactBlock a i.bleConnected i.ditWriteFails Contact.dit
          s.ditState i.rawDit i.now s.lastUartError).write.toList
        ++ (contactBlock a i.bleConnected i.dahWriteFails Contact.dah
          s.dahState i.rawDah i.now _).write.toList = []
    rw [contactBlock_write_eq, contactBlock_write_eq, h]
    rfl
  · intro a s i h
    rw [tick_ditEvent, tick_dahEvent]
    show (contactBlock a i.bleConnected i.ditWriteFails Contact.dit
          s.ditState i.rawDit i.now s.lastUartError).write.toList
        ++ (contactBlock a i.bleConnected i.dahWriteFails Contact.dah
          s.dahState i.rawDah i.now _).write.toList = _
    rw [contactBlock_write_eq, contactBlock_write_eq, h]
    rfl

/-- Witness for C8 at a concrete call: with BLE unavailable and no peer, a
send writes nothing. -/
theorem compact_wire_protocol_witness :
    (safe_uart_write false false false 1 0 "K1:1").written = none :=
  compact_wire_protocol.2.2.1 false false false 1 0 "K1:1" rfl

/-- C9: contact independence: on every tick, the DIT debounce outcome (new
state and event) is a function of the DIT raw sample and the tick instant
only, and likewise for DAH — each computed by the same `debouncePoll` with
the same 10 ms window — so activity on one contact never changes or
suppresses the other's confirmed level, last-change instant, or emitted
event within the same tick. -/
theorem contact_independence (a : Bool) (s : SysState) (i : TickInput) :
    (tick a s i).state.ditState = (debouncePoll s.ditState i.rawDit i.now).1
    ∧ (tick a s i).state.dahState = (debouncePoll s.dahState i.rawDah i.now).1
    ∧ (tick a s i).ditEvent = (debouncePoll s.ditState i.rawDit i.now).2
    ∧ (tick a s i).dahEvent = (debouncePoll s.dahState i.rawDah i.now).2 :=
  ⟨tick_ditState a s i, tick_dahState a s i,
    tick_ditEvent a s i, tick_dahEvent a s i⟩

/-- C10: `pixel_set` totality: for all integer channel values the enabled
pixel write clamps each channel into 0-255 and emits the triple in GRB
order, so the constructed bytes are always valid; with the pixel
uninitialized or disabled the call writes nothing. -/
theorem pixel_set_totality (pixelOk pixelEnabled : Bool) (r g b : Int) :
    pixel_set true true r g b
      = some [max 0 (min 255 g), max 0 (min 255 r), max 0 (min 255 b)]
    ∧ (∀ x ∈ [max 0 (min 255 g), max 0 (min 255 r), max 0 (min 255 b)],
        0 ≤ x ∧ x ≤ 255)
    ∧ pixel_set false pixelEnabled r g b = none
    ∧ pixel_set pixelOk false r g b = none := by
  refine ⟨rfl, ?_, ?_, ?_⟩
  · intro x hx
    simp only [List.mem_cons, List.not_mem_nil, or_false] at hx
    rcases hx with rfl | rfl | rfl <;>
      exact ⟨le_max_left 0 _, max_le (by norm_num) (min_le_left 255 _)⟩
  · cases pixelEnabled <;> rfl
  · cases pixelOk <;> rfl

/-- Witness for C10 at concrete out-of-range channels: the clamped green
channel of `pixel_set true true (-5) 300 128` is a valid byte value. -/
theorem pixel_set_totality_witness :
    0 ≤ max 0 (min 255 (300 : Int)) ∧ max 0 (min 255 (300 : Int)) ≤ 255 :=
  (pixel_set_totality true true (-5) 300 128).2.1
    (max 0 (min 255 (300 : Int))) (by decide)

end MorseForge
